import Mathlib

/-!
Verification development for the OpenRouter routing gateway.

The JavaScript sources are shallowly embedded: JSON values become an
inductive type, JS strings become Lean strings (or lists of characters
where list lemmas make proofs easier), and the effectful routing handler
becomes a pure function over an environment that records the outcome of
each external interaction (cache get/set, classifier call).  Definition
names follow the source files (`src/utils.js`, `src/classifier.js`,
`src/config.js`, `src/cache.js`, `server.js`, `src/providers/*.js`).
-/

/-- JSON values as produced by `JSON.parse` / consumed by `JSON.stringify`.
Numbers are modelled as integers: every numeric value appearing in the
routing-relevant parts of the code (decisions, token counts, status codes)
is integral. -/
inductive JsVal where
  | null : JsVal
  | bool (b : Bool) : JsVal
  | num (n : Int) : JsVal
  | str (s : String) : JsVal
  | arr (items : List JsVal) : JsVal
  | obj (fields : List (String × JsVal)) : JsVal

/-- Hex digit (lower case), used by the `\u00XX` escapes of `JSON.stringify`. -/
def hexDigitLower (n : Nat) : Char :=
  if n < 10 then Char.ofNat (48 + n) else Char.ofNat (87 + n)

/-- Hex digit (upper case), used by `encodeURIComponent` percent escapes. -/
def hexDigitUpper (n : Nat) : Char :=
  if n < 10 then Char.ofNat (48 + n) else Char.ofNat (55 + n)

/-- Escape one character the way `JSON.stringify` escapes string contents. -/
def escapeJsonChar (c : Char) : String :=
  if c = Char.ofNat 34 then "\\\""
  else if c = Char.ofNat 92 then "\\\\"
  else if c = Char.ofNat 8 then "\\b"
  else if c = Char.ofNat 12 then "\\f"
  else if c = Char.ofNat 10 then "\\n"
  else if c = Char.ofNat 13 then "\\r"
  else if c = Char.ofNat 9 then "\\t"
  else if c.toNat < 32 then
    String.mk ['\\', 'u', '0', '0', hexDigitLower (c.toNat / 16), hexDigitLower (c.toNat % 16)]
  else String.mk [c]

/-- Quote and escape a string the way `JSON.stringify` does. -/
def quoteJsonString (s : String) : String :=
  "\"" ++ String.join (s.data.map escapeJsonChar) ++ "\""

mutual

/-- `JSON.stringify` on the `JsVal` model (no replacer, no indentation),
as applied by `hashPayload`, `coerceContent` and the adapters. -/
def jsonStringify : JsVal → String
  | .null => "null"
  | .bool true => "true"
  | .bool false => "false"
  | .num n => toString n
  | .str s => quoteJsonString s
  | .arr items => "[" ++ jsonStringifyItems items ++ "]"
  | .obj fields => "\x7b" ++ jsonStringifyMembers fields ++ "\x7d"

/-- Comma-separated serialization of array elements. -/
def jsonStringifyItems : List JsVal → String
  | [] => ""
  | [j] => jsonStringify j
  | j :: rest => jsonStringify j ++ "," ++ jsonStringifyItems rest

/-- Comma-separated serialization of object members. -/
def jsonStringifyMembers : List (String × JsVal) → String
  | [] => ""
  | [(k, v)] => quoteJsonString k ++ ":" ++ jsonStringify v
  | (k, v) :: rest => quoteJsonString k ++ ":" ++ jsonStringify v ++ "," ++ jsonStringifyMembers rest

end

/-- JavaScript truthiness on JSON values (`NaN` does not arise for the
integer-valued model). -/
def jsTruthy : JsVal → Bool
  | .null => false
  | .bool b => b
  | .num n => n != 0
  | .str s => s != ""
  | .arr _ => true
  | .obj _ => true

/-- The JS `a || b` on JSON values: `b` when `a` is falsy. -/
def jsOrVal (a b : JsVal) : JsVal := if jsTruthy a then a else b

/-- Boolean infix-of test on lists, modelling the JS `String.includes`. -/
def listContainsSub [DecidableEq α] : List α → List α → Bool
  | hay, needle =>
    match hay with
    | [] => needle.isEmpty
    | _ :: t => needle.isPrefixOf hay || listContainsSub t needle

/-- The JS `hay.includes(needle)` on strings. -/
def strIncludes (hay needle : String) : Bool :=
  listContainsSub hay.data needle.data

/-- Drop trailing slashes from a character list. -/
def dropTrailingSlashes (l : List Char) : List Char :=
  (l.reverse.dropWhile (fun c => c = '/')).reverse

/-- The idiom `url.replace(/\/+$/, "")` used throughout the sources. -/
def stripTrailSlashes (s : String) : String :=
  String.mk (dropTrailingSlashes s.data)

/-- From `src/utils.js`:
`coerceContent` returns `""` for `null`/`undefined` (both map to
`JsVal.null` here), a string unchanged, and otherwise the JSON
serialization of the value.  The `catch` branch (`String(content)`) is
unreachable for plain JSON data, which can always be stringified. -/
def coerceContent : JsVal → String
  | .null => ""
  | .str s => s
  | .bool b => jsonStringify (.bool b)
  | .num n => jsonStringify (.num n)
  | .arr items => jsonStringify (.arr items)
  | .obj fields => jsonStringify (.obj fields)

/-- The routing-relevant fields of an inbound chat-completion payload.
`hashPayload` reads only the first four; the rest are carried to state
that the fingerprint is independent of them. -/
structure ChatPayload where
  messages : JsVal := .null
  tools : JsVal := .null
  tool_choice : JsVal := .null
  response_format : JsVal := .null
  model : JsVal := .null
  stream : JsVal := .null
  temperature : JsVal := .null
  otherParams : JsVal := .null

/-- From `src/utils.js` (`hashPayload`): the string fed to the SHA-256
hash, i.e. `JSON.stringify` of the object with the four routing-relevant
fields and their falsy-value fallbacks. -/
def fingerprintInput (p : ChatPayload) : String :=
  jsonStringify (.obj [
    ("messages", jsOrVal p.messages (.arr [])),
    ("tools", jsOrVal p.tools .null),
    ("tool_choice", jsOrVal p.tool_choice .null),
    ("response_format", jsOrVal p.response_format .null)])

/-- From `src/utils.js`: `hashPayload` is `sha256hex` applied to
`fingerprintInput`.  `crypto.createHash("sha256")` from node is a pure
function of the input string, so it is taken as a parameter rather than
re-implemented. -/
def hashPayload (sha256hex : String → String) (p : ChatPayload) : String :=
  sha256hex (fingerprintInput p)

/-- UTF-8 encoding of a Unicode code point, used by `encodeURIComponent`. -/
def utf8Bytes (n : Nat) : List Nat :=
  if n < 128 then [n]
  else if n < 2048 then [192 + n / 64, 128 + n % 64]
  else if n < 65536 then [224 + n / 4096, 128 + (n / 64) % 64, 128 + n % 64]
  else [240 + n / 262144, 128 + (n / 4096) % 64, 128 + (n / 64) % 64, 128 + n % 64]

/-- Characters that `encodeURIComponent` leaves unescaped. -/
def isUnreservedUriChar (c : Char) : Bool :=
  c.isAlpha || c.isDigit || c = '-' || c = '_' || c = '.' || c = '!' ||
    c = '~' || c = '*' || c = Char.ofNat 39 || c = '(' || c = ')'

/-- Percent-escape of a single byte, upper-case hex. -/
def percentByte (b : Nat) : String :=
  String.mk ['%', hexDigitUpper (b / 16), hexDigitUpper (b % 16)]

/-- Encoding of one character under `encodeURIComponent`. -/
def encodeUriChar (c : Char) : String :=
  if isUnreservedUriChar c then String.mk [c]
  else String.join ((utf8Bytes c.toNat).map percentByte)

/-- The JS global `encodeURIComponent`, as used by the Azure and Gemini
adapters to place deployment / model names and the api version in URLs. -/
def encodeURIComponent (s : String) : String :=
  String.join (s.data.map encodeUriChar)

/-- JS truthiness of an optional string (`undefined`/`null` and `""` are falsy). -/
def strTruthyOpt : Option String → Bool
  | none => false
  | some t => t != ""

/-- The JS `a || b` on optional strings. -/
def jsOrStr (a b : Option String) : Option String :=
  if strTruthyOpt a then a else b

/-- Models the `new URL(...)` branch of `buildAzureUrl`
(`src/providers/azure_openai.js`), taken when the configured base URL
already contains `/openai/deployments/`: the path is preserved, with
`/chat/completions` appended when missing, and `api-version` is forced.
The WHATWG URL object's path/query handling is approximated by splitting
at the first `?`; every theorem below constrains only the other branch. -/
def azurePreserveUrl (trimmed : String) (apiVersion : String) : String :=
  let base := (trimmed.splitOn "?").headD trimmed
  let base' := if base.endsWith "/chat/completions" then base
               else stripTrailSlashes base ++ "/chat/completions"
  base' ++ "?api-version=" ++ encodeURIComponent apiVersion

/-- From `src/providers/azure_openai.js` (`buildAzureUrl`). -/
def buildAzureUrl (baseUrl deployment apiVersion : String) : String :=
  let trimmed := stripTrailSlashes baseUrl
  if strIncludes trimmed "/openai/deployments/" then
    azurePreserveUrl trimmed apiVersion
  else
    trimmed ++ "/openai/deployments/" ++ encodeURIComponent deployment ++
      "/chat/completions?api-version=" ++ encodeURIComponent apiVersion

/-- Azure upstream descriptor fields read by `proxyAzureOpenAi`. -/
structure AzureUpstream where
  baseUrl : String
  model : Option String := none
  deployment : Option String := none
  apiVersion : Option String := none

/-- The `payload.model` read by the deployment fallback chain; a string in
well-formed chat-completion requests. -/
def payloadModelStr (payload : List (String × JsVal)) : Option String :=
  match payload.lookup "model" with
  | some (.str s) => some s
  | _ => none

/-- From `proxyAzureOpenAi`: `upstream.deployment || upstream.model ||
payload.model`, with the subsequent `if (!deployment)` guard folded in
(`none` corresponds to the 400 `missing_deployment` reply). -/
def resolveAzureDeployment (u : AzureUpstream) (payload : List (String × JsVal)) :
    Option String :=
  let d := jsOrStr u.deployment (jsOrStr u.model (payloadModelStr payload))
  if strTruthyOpt d then d else none

/-- From `proxyAzureOpenAi`: `upstream.apiVersion || config?.azureApiVersion
|| "2024-02-01"`. -/
def resolveAzureApiVersion (u : AzureUpstream) (cfgAzureApiVersion : Option String) : String :=
  (jsOrStr u.apiVersion (jsOrStr cfgAzureApiVersion (some "2024-02-01"))).getD "2024-02-01"

/-- The outbound Azure request (URL and JSON body) constructed by
`proxyAzureOpenAi` before the fetch: the body is the spread copy of the
payload with its `model` member deleted. -/
def azureRequest (u : AzureUpstream) (cfgAzureApiVersion : Option String)
    (payload : List (String × JsVal)) : Option (String × List (String × JsVal)) :=
  match resolveAzureDeployment u payload with
  | none => none
  | some dep =>
      some (buildAzureUrl u.baseUrl dep (resolveAzureApiVersion u cfgAzureApiVersion),
            payload.filter (fun kv => kv.1 != "model"))

/-- The `err.code` field of a JS error: absent, a number, or a string. -/
inductive ErrCode where
  | noCode : ErrCode
  | numCode (n : Int) : ErrCode
  | strCode (s : String) : ErrCode
deriving DecidableEq

/-- The fields of a thrown JS error consulted by the classifier's retry
policy (`src/classifier.js`); absent `message`/`body` are `""` (falsy). -/
structure JsError where
  name : String := ""
  code : ErrCode := .noCode
  message : String := ""
  body : String := ""
deriving DecidableEq

/-- The JS `s.toLowerCase()` (ASCII range), on the character-list view so
that it reduces by computation. -/
def jsToLowerStr (s : String) : String :=
  String.mk (s.data.map Char.toLower)

/-- From `src/classifier.js` (`isAbortError`). -/
def isAbortError (e : JsError) : Bool :=
  e.name == "AbortError" || e.code == ErrCode.numCode 20 ||
    strIncludes (jsToLowerStr e.message) "aborted"

/-- From `src/classifier.js` (`isModelLoadingMessage`). -/
def isModelLoadingMessage (text : String) : Bool :=
  strIncludes (jsToLowerStr text) "loading model"

/-- From `src/classifier.js` (`isModelLoadingError`): explicit
`MODEL_LOADING` code, or a loading message in `err.body || err.message`. -/
def isModelLoadingError (e : JsError) : Bool :=
  e.code == ErrCode.strCode "MODEL_LOADING" ||
    isModelLoadingMessage (if e.body != "" then e.body else e.message)

/-- The classifier-config fields that steer the retry loop of
`classifyRequest` (the delay `loadingRetryMs` affects only sleep time). -/
structure ClassifierRetryCfg where
  timeoutMs : Nat
  loadingMaxRetries : Option Nat := some 2

/-- From `src/classifier.js` (`classifyRequest`): the retry loop, driven by
a trace of attempt outcomes (one entry per `attemptClassification` call).
Returns the propagated result together with the `timeoutMs` in force at
each attempt.  An exhausted trace yields a sentinel error (the real loop
would simply issue a further attempt). -/
def classifyLoop : ClassifierRetryCfg → Bool → Nat → List (Except JsError Int) →
    Except JsError Int × List Nat
  | _, _, _, [] => (.error { name := "TraceExhausted" }, [])
  | cfg, _, _, .ok d :: _ => (.ok d, [cfg.timeoutMs])
  | cfg, timeoutRetried, loadingRetries, .error e :: rest =>
    if isAbortError e && !timeoutRetried then
      let retryTimeout := max (cfg.timeoutMs * 2) 8000
      let next := classifyLoop { cfg with timeoutMs := retryTimeout } true loadingRetries rest
      (next.1, cfg.timeoutMs :: next.2)
    else if isModelLoadingError e && decide (loadingRetries < cfg.loadingMaxRetries.getD 1) then
      let next := classifyLoop cfg timeoutRetried (loadingRetries + 1) rest
      (next.1, cfg.timeoutMs :: next.2)
    else (.error e, [cfg.timeoutMs])

/-- Routing tiers. -/
inductive Route where
  | cheap | medium | frontier
deriving DecidableEq

/-- Outcome of the `POST /v1/chat/completions` handler body: the 400
`invalid_request` reply, or dispatch to the adapter with a decision and
route. -/
inductive HAction where
  | badRequest : HAction
  | routed (decision : Int) (route : Route) : HAction
deriving DecidableEq

/-- From `server.js`: `route = "frontier"; if (decision === 0) cheap;
if (decision === 1) medium`. -/
def routeOf (d : Int) : Route :=
  if d = 0 then .cheap else if d = 1 then .medium else .frontier

/-- Models JS `Number()` on the strings this router caches: `""` is 0, a
digit string is its value, anything else is `NaN` (`none`).  (Node's
`Number` also accepts signs, decimals and whitespace; the cache stores
only `String(decision)` for small integers.) -/
def jsToNumber (s : String) : Option Int :=
  if s = "" then some 0 else (s.toNat?).map Int.ofNat

/-- One request's environment for the routing handler: the payload shape
and the outcomes of the three external interactions it may perform. -/
structure HandlerEnv where
  hasMessages : Bool
  classifierEnabled : Bool
  cacheEnabled : Bool
  cacheGet : Except JsError (Option String) := .ok none
  classify : Except JsError Int := .ok 2
  cacheSet : Except JsError Unit := .ok ()

/-- The warn-log message of the handler's catch block. -/
def classifierWarnLog : String := "classifier failed, falling back to frontier"

/-- From `server.js` (`app.post("/v1/chat/completions")`), decision phase:
validation, cache lookup (outside any try/catch, so a `get` rejection
propagates as `Except.error` to the global error handler), classification
and cache store inside one try/catch that degrades to decision 2.  The
second component collects warn logs. -/
def handleChat (env : HandlerEnv) : Except JsError HAction × List String :=
  if !env.hasMessages then (.ok .badRequest, [])
  else if env.classifierEnabled then
    let cachedStep : Except JsError (Option Int) :=
      if env.cacheEnabled then
        match env.cacheGet with
        | .error e => .error e
        | .ok none => .ok none
        | .ok (some s) => .ok (jsToNumber s)
      else .ok none
    match cachedStep with
    | .error e => (.error e, [])
    | .ok (some d) => (.ok (.routed d (routeOf d)), [])
    | .ok none =>
      match env.classify with
      | .ok d =>
        if env.cacheEnabled then
          match env.cacheSet with
          | .ok _ => (.ok (.routed d (routeOf d)), [])
          | .error _ => (.ok (.routed 2 .frontier), [classifierWarnLog])
        else (.ok (.routed d (routeOf d)), [])
      | .error _ => (.ok (.routed 2 .frontier), [classifierWarnLog])
  else (.ok (.routed 2 .frontier), [])

/-- Upstream descriptor fields involved in the co-location check of
`src/config.js`. -/
structure UpstreamCfg where
  baseUrl : Option String := none
  model : Option String := none
deriving DecidableEq

/-- Classifier-config fields involved in config loading. -/
structure ClassifierLoadCfg where
  enabled : Bool
  baseUrl : Option String := none
  model : String
deriving DecidableEq

/-- The slice of the frozen config built by `src/config.js` that the
co-location rule and the required-field checks read. -/
structure AppConfig where
  cheap : Option UpstreamCfg
  medium : Option UpstreamCfg
  frontier : Option UpstreamCfg
  classifier : ClassifierLoadCfg
deriving DecidableEq

/-- From `src/config.js` (`normalizeBaseUrl`): `if (!url) return url;`
then strip trailing slashes. -/
def normalizeBaseUrl : Option String → Option String
  | none => none
  | some s => if s = "" then some s else some (stripTrailSlashes s)

/-- The optional chain `config.upstreams.<tier>?.baseUrl`. -/
def optBaseUrl : Option UpstreamCfg → Option String
  | none => none
  | some u => u.baseUrl

/-- The assignment `config.upstreams.cheap.model = config.classifier.model`
(a no-op when there is no cheap upstream). -/
def setCheapModel (c : AppConfig) : AppConfig :=
  match c.cheap with
  | some u => { c with cheap := some { u with model := some c.classifier.model } }
  | none => c

/-- From `src/config.js` (the co-location block after `export const
config`): when the classifier is enabled and cheap and classifier base
URLs are truthy and their normalized forms are truthy and equal, force
`cheap.model` to the classifier's model. -/
def colocateCheap (c : AppConfig) : AppConfig :=
  if c.classifier.enabled && strTruthyOpt (optBaseUrl c.cheap) &&
      strTruthyOpt c.classifier.baseUrl then
    if strTruthyOpt (normalizeBaseUrl (optBaseUrl c.cheap)) &&
        strTruthyOpt (normalizeBaseUrl c.classifier.baseUrl) &&
        normalizeBaseUrl (optBaseUrl c.cheap) == normalizeBaseUrl c.classifier.baseUrl then
      setCheapModel c
    else c
  else c

/-- From `src/config.js`: the module-level finalization — co-location,
then the four required-field checks, each of which throws on failure. -/
def loadConfig (c : AppConfig) : Except String AppConfig :=
  let c1 := colocateCheap c
  if c1.classifier.enabled && !strTruthyOpt c1.classifier.baseUrl then
    .error "CLASSIFIER_BASE_URL is required"
  else if !strTruthyOpt (optBaseUrl c1.frontier) then
    .error "FRONTIER_BASE_URL (or UPSTREAMS_JSON.frontier.baseUrl) is required"
  else if c1.classifier.enabled && !strTruthyOpt (optBaseUrl c1.cheap) then
    .error "CHEAP_BASE_URL or CLASSIFIER_BASE_URL is required for cheap route"
  else if c1.classifier.enabled && !strTruthyOpt (optBaseUrl c1.medium) then
    .error "MEDIUM_BASE_URL is required for medium route"
  else .ok c1

/-- From `server.js` (`onRequest` hook): `auth.startsWith("Bearer ") ?
auth.slice(7) : auth`, on the character-list view of JS strings. -/
def bearerToken (auth : List Char) : List Char :=
  if "Bearer ".toList.isPrefixOf auth then auth.drop 7 else auth

/-- From `server.js` (`onRequest` hook): no gate when no router key is
configured; otherwise compare the (optionally `Bearer `-stripped) header
against the key.  `none` means the request passes; `some (401,
"unauthorized")` is the early reply. -/
def onRequestAuth (routerApiKey : String) (authHeader : Option String) :
    Option (Nat × String) :=
  if routerApiKey = "" then none
  else if bearerToken (authHeader.getD "").toList = routerApiKey.toList then none
  else some (401, "unauthorized")

/-- The fields of a parsed Anthropic SSE event consulted by the streaming
branch of `proxyAnthropic`: `json.type` and `json.delta?.text` (absent
text is `none`; the empty string is falsy and also emits nothing).
`message_start` usage capture mutates only the usage buckets, not the
frame stream, and is not modelled here. -/
structure AnthropicEvent where
  type : String
  deltaText : Option String := none
deriving DecidableEq

/-- An SSE frame written to the client: a JSON chunk (its `object` field,
`choices[0].delta.content`, `choices[0].finish_reason`) or the literal
`data: [DONE]` line. -/
inductive SseFrame where
  | chunk (object : String) (deltaContent : Option String) (finishReason : Option String)
  | doneLine
deriving DecidableEq

/-- From `src/providers/helpers.js` (`writeOpenAiChunk`): a chunk with
`object: "chat.completion.chunk"`, `delta.content` = the text, and
`finish_reason: null`. -/
def writeOpenAiChunkFrame (text : String) : SseFrame :=
  .chunk "chat.completion.chunk" (some text) none

/-- The frame (if any) that one Anthropic event makes `proxyAnthropic`
write: `json.type === "content_block_delta" && json.delta?.text`. -/
def anthropicEmit (e : AnthropicEvent) : Option SseFrame :=
  if e.type = "content_block_delta" then
    match e.deltaText with
    | some t => if t != "" then some (writeOpenAiChunkFrame t) else none
    | none => none
  else none

/-- From `src/providers/anthropic.js`, streaming branch: one frame per
qualifying delta event, then `writeOpenAiDone` — which writes only
`data: [DONE]` (`src/providers/helpers.js`). -/
def anthropicStreamFrames (events : List AnthropicEvent) : List SseFrame :=
  events.filterMap anthropicEmit ++ [SseFrame.doneLine]

/-- A chunk frame whose `finish_reason` is `"stop"`. -/
def isStopChunk : SseFrame → Bool
  | .chunk _ _ (some r) => r == "stop"
  | _ => false

/-- The `data: [DONE]` line. -/
def isDoneLine : SseFrame → Bool
  | .doneLine => true
  | _ => false

/-- A well-formed content chunk: `object: "chat.completion.chunk"`,
non-empty `delta.content`, `finish_reason: null`. -/
def isContentChunk : SseFrame → Bool
  | .chunk o (some t) none => o == "chat.completion.chunk" && t != ""
  | _ => false

/-- C3 (counterexample): for an array of parts, `coerceContent` returns the
JSON serialization of the array, not the concatenation of the parts' text
the claim describes — on `[ \x7b text: "hi" \x7d ]` it returns the JSON
text, which differs from `"hi"`. -/
theorem coerceContent_parts_cex :
    coerceContent (.arr [.obj [("text", .str "hi")]]) = "[\x7b\"text\":\"hi\"\x7d]" ∧
    ("[\x7b\"text\":\"hi\"\x7d]" : String) ≠ "hi" := by
  constructor
  · rfl
  · decide

/-- C3 (amended): `coerceContent` returns `""` for null/undefined, a string
unchanged, and any other value — including an array of parts — its JSON
serialization; the part-text precedence rule lives in the adapters'
helpers, not here. -/
theorem coerceContent_cases :
    coerceContent .null = "" ∧ (∀ s, coerceContent (.str s) = s) ∧
    (∀ items, coerceContent (.arr items) = jsonStringify (.arr items)) ∧
    (∀ fields, coerceContent (.obj fields) = jsonStringify (.obj fields)) :=
  ⟨rfl, fun _ => rfl, fun _ => rfl, fun _ => rfl⟩

/-- C4: two payloads with identical `messages`, `tools`, `tool_choice` and
`response_format` have equal fingerprints, whatever their `model`,
`stream`, `temperature` or other sampling parameters, and for any
(deterministic) hash function. -/
theorem hashPayload_ignores_sampling (sha256hex : String → String) (p q : ChatPayload)
    (hm : p.messages = q.messages) (ht : p.tools = q.tools)
    (htc : p.tool_choice = q.tool_choice) (hrf : p.response_format = q.response_format) :
    hashPayload sha256hex p = hashPayload sha256hex q := by
  unfold hashPayload fingerprintInput
  rw [hm, ht, htc, hrf]

/-- C4 (witness): two concrete payloads differing in `model`, `stream` and
`temperature` collide. -/
theorem hashPayload_ignores_sampling_witness :
    hashPayload (fun s => s)
      { messages := .arr [.obj [("role", .str "user"), ("content", .str "2+2?")]],
        model := .str "gpt-4o", stream := .bool true, temperature := .num 1 } =
    hashPayload (fun s => s)
      { messages := .arr [.obj [("role", .str "user"), ("content", .str "2+2?")]],
        model := .str "o3", stream := .bool false, temperature := .num 0 } :=
  hashPayload_ignores_sampling _ _ _ rfl rfl rfl rfl

/-- C1: with the classifier enabled and no cached decision (cache disabled
or a miss), any classifier failure makes the handler set decision 2, route
to frontier, log the warning, and reply normally — never with an error. -/
theorem classifier_failure_routes_frontier (env : HandlerEnv) (e : JsError)
    (hm : env.hasMessages = true) (hc : env.classifierEnabled = true)
    (hmiss : env.cacheEnabled = false ∨ env.cacheGet = .ok none)
    (hcl : env.classify = .error e) :
    handleChat env = (.ok (.routed 2 .frontier), [classifierWarnLog]) := by
  unfold handleChat
  rcases hmiss with hce | hget
  · simp [hm, hc, hce, hcl]
  · by_cases hce : env.cacheEnabled <;> simp [hm, hc, hce, hget, hcl]

/-- C1 (witness): a concrete environment with a cache miss and an aborted
classifier call degrades to frontier without surfacing an error. -/
theorem classifier_failure_routes_frontier_witness :
    handleChat { hasMessages := true, classifierEnabled := true, cacheEnabled := true,
                 cacheGet := .ok none, classify := .error { name := "AbortError" } } =
      (.ok (.routed 2 .frontier), [classifierWarnLog]) :=
  classifier_failure_routes_frontier _ { name := "AbortError" } rfl rfl (Or.inr rfl) rfl

/-- C10: classification-then-store is not atomic — when the classifier
returns a decision in \x7b0, 1\x7d but the cache store rejects, the handler
discards the decision and routes to frontier with decision 2. -/
theorem cache_set_error_discards_decision (env : HandlerEnv) (d : Int) (e : JsError)
    (hm : env.hasMessages = true) (hc : env.classifierEnabled = true)
    (hce : env.cacheEnabled = true) (hget : env.cacheGet = .ok none)
    (hcl : env.classify = .ok d) (hd : d = 0 ∨ d = 1)
    (hset : env.cacheSet = .error e) :
    handleChat env = (.ok (.routed 2 .frontier), [classifierWarnLog]) := by
  unfold handleChat
  simp [hm, hc, hce, hget, hcl, hset]

/-- C10 (witness): decision 0 from the classifier is discarded when the
store rejects. -/
theorem cache_set_error_discards_decision_witness :
    handleChat { hasMessages := true, classifierEnabled := true, cacheEnabled := true,
                 cacheGet := .ok none, classify := .ok 0,
                 cacheSet := .error { message := "redis down" } } =
      (.ok (.routed 2 .frontier), [classifierWarnLog]) :=
  cache_set_error_discards_decision _ 0 { message := "redis down" }
    rfl rfl rfl rfl rfl (Or.inl rfl) rfl

/-- C5 (counterexample): a cache `get` rejection is not shielded — it
propagates out of the handler (reaching the global 500 handler), whereas
the same request with a clean miss is routed to cheap; the client-visible
response changes. -/
theorem cache_get_error_changes_response_cex :
    handleChat { hasMessages := true, classifierEnabled := true, cacheEnabled := true,
                 cacheGet := .error { message := "redis down" }, classify := .ok 0 } =
      (.error { message := "redis down" }, []) ∧
    handleChat { hasMessages := true, classifierEnabled := true, cacheEnabled := true,
                 cacheGet := .ok none, classify := .ok 0 } =
      (.ok (.routed 0 .cheap), []) ∧
    (Except.error { message := "redis down" } : Except JsError HAction) ≠
      .ok (.routed 0 .cheap) := by
  refine ⟨rfl, rfl, by simp⟩

/-- C5 (amended): only cache `set` errors are contained (they degrade the
request to decision 2 / frontier with a warning, never an error reply); a
cache `get` error escapes the handler and is answered by the global error
handler. -/
theorem cache_error_containment (env : HandlerEnv)
    (hm : env.hasMessages = true) (hc : env.classifierEnabled = true)
    (hce : env.cacheEnabled = true) :
    (∀ e, env.cacheGet = .error e → handleChat env = (.error e, [])) ∧
    (∀ e d, env.cacheGet = .ok none → env.classify = .ok d → env.cacheSet = .error e →
      handleChat env = (.ok (.routed 2 .frontier), [classifierWarnLog])) := by
  constructor
  · intro e hget
    unfold handleChat
    simp [hm, hc, hce, hget]
  · intro e d hget hcl hset
    unfold handleChat
    simp [hm, hc, hce, hget, hcl, hset]

/-- C5 (witness): the two containment behaviours at concrete inputs. -/
theorem cache_error_containment_witness :
    handleChat { hasMessages := true, classifierEnabled := true, cacheEnabled := true,
                 cacheGet := .error { message := "boom" }, classify := .ok 1 } =
      (.error { message := "boom" }, []) :=
  (cache_error_containment _ rfl rfl rfl).1 { message := "boom" } rfl

/-- C6: a first aborted (timed-out) attempt is retried exactly once with
the timeout raised to `max(2 × configured, 8000)`; if the retried attempt
also aborts (and is not a model-loading error), that error propagates with
no further attempt — and if the retry succeeds its decision is returned. -/
theorem classifier_timeout_retry (cfg : ClassifierRetryCfg) (e1 e2 : JsError) (d : Int)
    (rest rest' : List (Except JsError Int))
    (h1 : isAbortError e1 = true) (h2 : isAbortError e2 = true)
    (h3 : isModelLoadingError e2 = false) :
    classifyLoop cfg false 0 (.error e1 :: .error e2 :: rest) =
      (.error e2, [cfg.timeoutMs, max (cfg.timeoutMs * 2) 8000]) ∧
    classifyLoop cfg false 0 (.error e1 :: .ok d :: rest') =
      (.ok d, [cfg.timeoutMs, max (cfg.timeoutMs * 2) 8000]) := by
  constructor <;> simp [classifyLoop, h1, h2, h3]

/-- C6 (witness): with the default 800 ms timeout, two aborts in a row use
timeouts 800 then 8000 and propagate the second abort. -/
theorem classifier_timeout_retry_witness :
    classifyLoop { timeoutMs := 800 } false 0
      [.error { name := "AbortError" }, .error { name := "AbortError" }] =
      (.error { name := "AbortError" }, [800, 8000]) :=
  ((classifier_timeout_retry { timeoutMs := 800 } { name := "AbortError" }
      { name := "AbortError" } 0 [] [] (by decide) (by decide) (by decide)).1).trans
    (by norm_num)

/-- C2 (counterexample): the translated stream for one Anthropic delta
contains a content chunk and the `[DONE]` line but no terminator chunk
with `finish_reason: "stop"` — the claim's "exactly one terminator chunk"
fails (the count is 0). -/
theorem anthropic_stream_no_stop_chunk_cex :
    anthropicStreamFrames
        [{ type := "message_start" }, { type := "content_block_delta", deltaText := some "Hi" }] =
      [SseFrame.chunk "chat.completion.chunk" (some "Hi") none, SseFrame.doneLine] ∧
    (anthropicStreamFrames
        [{ type := "message_start" }, { type := "content_block_delta", deltaText := some "Hi" }]).countP
        isStopChunk = 0 := by
  exact ⟨rfl, rfl⟩

/-- C2 (amended): an Anthropic-translated stream with at least one
non-empty content delta consists of one or more well-formed content
chunks (object `chat.completion.chunk`, non-empty `delta.content`,
`finish_reason: null`) followed by exactly one `data: [DONE]` line; no
stop-terminator chunk is emitted. -/
theorem anthropic_stream_shape (events : List AnthropicEvent)
    (h : ∃ e ∈ events, ∃ t, e.type = "content_block_delta" ∧ e.deltaText = some t ∧ t ≠ "") :
    (anthropicStreamFrames events).dropLast ≠ [] ∧
    (∀ f ∈ (anthropicStreamFrames events).dropLast, isContentChunk f = true) ∧
    (anthropicStreamFrames events).getLast? = some .doneLine ∧
    (anthropicStreamFrames events).countP isDoneLine = 1 ∧
    (anthropicStreamFrames events).countP isStopChunk = 0 := by
  obtain ⟨e, he, t, hty, htx, hne⟩ := h
  have hemit : anthropicEmit e = some (writeOpenAiChunkFrame t) := by
    simp [anthropicEmit, hty, htx, hne]
  have hmem : writeOpenAiChunkFrame t ∈ events.filterMap anthropicEmit :=
    List.mem_filterMap.mpr ⟨e, he, hemit⟩
  have hchunkOnly : ∀ f ∈ events.filterMap anthropicEmit, isContentChunk f = true := by
    intro f hf
    obtain ⟨a, _, ha⟩ := List.mem_filterMap.mp hf
    unfold anthropicEmit at ha
    by_cases h1 : a.type = "content_block_delta"
    · rw [if_pos h1] at ha
      cases hdt : a.deltaText with
      | none => rw [hdt] at ha; simp at ha
      | some u =>
        rw [hdt] at ha
        by_cases h2 : u != ""
        · simp [h2] at ha
          subst ha
          simp [isContentChunk, writeOpenAiChunkFrame, h2]
        · simp [h2] at ha
    · rw [if_neg h1] at ha; exact absurd ha (by simp)
  unfold anthropicStreamFrames
  refine ⟨?_, ?_, ?_, ?_, ?_⟩
  · rw [List.dropLast_concat]
    exact List.ne_nil_of_mem hmem
  · rw [List.dropLast_concat]
    exact hchunkOnly
  · exact List.getLast?_concat _
  · rw [List.countP_append]
    have h0 : (events.filterMap anthropicEmit).countP isDoneLine = 0 := by
      refine List.countP_eq_zero.mpr (fun f hf => ?_)
      have hc := hchunkOnly f hf
      cases f <;> simp_all [isContentChunk, isDoneLine]
    rw [h0]
    rfl
  · rw [List.countP_append]
    have h0 : (events.filterMap anthropicEmit).countP isStopChunk = 0 := by
      refine List.countP_eq_zero.mpr (fun f hf => ?_)
      have hc := hchunkOnly f hf
      cases f with
      | doneLine => simp [isContentChunk] at hc
      | chunk o dc fr =>
        cases dc <;> cases fr <;> simp_all [isContentChunk, isStopChunk]
    rw [h0]
    rfl

/-- C2 (witness): the amended shape at a concrete one-delta stream. -/
theorem anthropic_stream_shape_witness :
    (anthropicStreamFrames [{ type := "content_block_delta", deltaText := some "Hi" }]).dropLast ≠ [] ∧
    (∀ f ∈ (anthropicStreamFrames
        [{ type := "content_block_delta", deltaText := some "Hi" }]).dropLast,
      isContentChunk f = true) ∧
    (anthropicStreamFrames
        [{ type := "content_block_delta", deltaText := some "Hi" }]).getLast? = some .doneLine ∧
    (anthropicStreamFrames
        [{ type := "content_block_delta", deltaText := some "Hi" }]).countP isDoneLine = 1 ∧
    (anthropicStreamFrames
        [{ type := "content_block_delta", deltaText := some "Hi" }]).countP isStopChunk = 0 :=
  anthropic_stream_shape [{ type := "content_block_delta", deltaText := some "Hi" }]
    ⟨{ type := "content_block_delta", deltaText := some "Hi" }, by simp, "Hi", rfl, rfl, by decide⟩

/-- C9 (counterexample): the api version is also URL-encoded in the
outbound Azure URL, so for an api version containing a space the URL
differs from the claim's template with the raw `<apiVersion>`. -/
theorem azure_api_version_encoded_cex :
    azureRequest { baseUrl := "https://x.openai.azure.com", deployment := some "gpt4o",
                   apiVersion := some "a b" } none
        [("model", .str "gpt-4o"), ("messages", .arr [])] =
      some ("https://x.openai.azure.com/openai/deployments/gpt4o/chat/completions?api-version=a%20b",
            [("messages", .arr [])]) ∧
    ("https://x.openai.azure.com/openai/deployments/gpt4o/chat/completions?api-version=a%20b" : String) ≠
      "https://x.openai.azure.com/openai/deployments/gpt4o/chat/completions?api-version=a b" := by
  constructor
  · rfl
  · decide

/-- C9 (amended): when the stripped base URL does not contain
`/openai/deployments/`, the outbound URL is
`<stripped baseUrl>/openai/deployments/<urlEncodedDeployment>/chat/completions?api-version=<urlEncodedApiVersion>`
and the outbound body is the inbound payload without its `model` member. -/
theorem azure_request_shape (u : AzureUpstream) (cfgV : Option String)
    (payload : List (String × JsVal)) (dep : String)
    (hdep : resolveAzureDeployment u payload = some dep)
    (hbranch : strIncludes (stripTrailSlashes u.baseUrl) "/openai/deployments/" = false) :
    azureRequest u cfgV payload =
      some (stripTrailSlashes u.baseUrl ++ "/openai/deployments/" ++ encodeURIComponent dep ++
              "/chat/completions?api-version=" ++
              encodeURIComponent (resolveAzureApiVersion u cfgV),
            payload.filter (fun kv => kv.1 != "model")) := by
  unfold azureRequest buildAzureUrl
  rw [hdep]
  simp [hbranch]

/-- C9 (witness): the spec's Azure scenario — deployment `gpt4o`, api
version `2024-10-21` — through the amended template. -/
theorem azure_request_shape_witness :
    azureRequest { baseUrl := "https://x.openai.azure.com", deployment := some "gpt4o",
                   apiVersion := some "2024-10-21" } none
        [("model", .str "gpt-4o"), ("messages", .arr [])] =
      some (stripTrailSlashes "https://x.openai.azure.com" ++ "/openai/deployments/" ++
              encodeURIComponent "gpt4o" ++ "/chat/completions?api-version=" ++
              encodeURIComponent
                (resolveAzureApiVersion
                  { baseUrl := "https://x.openai.azure.com", deployment := some "gpt4o",
                    apiVersion := some "2024-10-21" } none),
            [("model", JsVal.str "gpt-4o"), ("messages", JsVal.arr [])].filter
              (fun kv => kv.1 != "model")) :=
  azure_request_shape _ none _ "gpt4o" rfl rfl

/-- The model assignment never changes the classifier part of the config. -/
theorem setCheapModel_classifier (c : AppConfig) :
    (setCheapModel c).classifier = c.classifier := by
  unfold setCheapModel
  cases c.cheap <;> rfl

/-- The model assignment never changes the cheap upstream's base URL. -/
theorem setCheapModel_cheap_baseUrl (c : AppConfig) :
    optBaseUrl (setCheapModel c).cheap = optBaseUrl c.cheap := by
  unfold setCheapModel
  cases hcc : c.cheap with
  | none => simp [hcc]
  | some u => rfl

/-- Co-location never changes the classifier part of the config. -/
theorem colocateCheap_classifier (c : AppConfig) :
    (colocateCheap c).classifier = c.classifier := by
  unfold colocateCheap
  split
  · split
    · exact setCheapModel_classifier c
    · rfl
  · rfl

/-- Co-location never changes the cheap upstream's base URL. -/
theorem colocateCheap_cheap_baseUrl (c : AppConfig) :
    optBaseUrl (colocateCheap c).cheap = optBaseUrl c.cheap := by
  unfold colocateCheap
  split
  · split
    · exact setCheapModel_cheap_baseUrl c
    · rfl
  · rfl

/-- Co-location either leaves the cheap upstream alone or overwrites only
its model with the classifier's. -/
theorem colocateCheap_cheap_shape (c : AppConfig) :
    (colocateCheap c).cheap = c.cheap ∨
    ∃ u0, c.cheap = some u0 ∧
      (colocateCheap c).cheap = some { u0 with model := some c.classifier.model } := by
  unfold colocateCheap
  split
  · split
    · cases hcc : c.cheap with
      | none => left; simp [setCheapModel, hcc]
      | some u0 => right; exact ⟨u0, rfl, by simp [setCheapModel, hcc]⟩
    · left; rfl
  · left; rfl

/-- When the guard conditions of the co-location block all hold, the cheap
model is overwritten with the classifier's. -/
theorem colocateCheap_fires (c : AppConfig) (u0 : UpstreamCfg)
    (hc : c.cheap = some u0) (he : c.classifier.enabled = true)
    (h1 : strTruthyOpt u0.baseUrl = true) (h2 : strTruthyOpt c.classifier.baseUrl = true)
    (heq : normalizeBaseUrl u0.baseUrl = normalizeBaseUrl c.classifier.baseUrl)
    (hne : strTruthyOpt (normalizeBaseUrl u0.baseUrl) = true) :
    colocateCheap c = { c with cheap := some { u0 with model := some c.classifier.model } } := by
  unfold colocateCheap
  have hob : optBaseUrl c.cheap = u0.baseUrl := by rw [hc]; rfl
  rw [hob]
  simp [he, h1, h2, ← heq, hne, setCheapModel, hc]

/-- C7 (counterexample): base URLs made only of slashes survive loading
(they are truthy) but normalize to the empty string, which the co-location
guard treats as falsy — the cheap model is left different from the
classifier's even though the stripped base URLs are equal. -/
theorem colocation_not_forced_cex :
    loadConfig
      { cheap := some { baseUrl := some "/", model := some "cheap-model" },
        medium := some { baseUrl := some "http://medium.local" },
        frontier := some { baseUrl := some "http://frontier.local" },
        classifier := { enabled := true, baseUrl := some "/", model := "cls-model" } } =
      .ok { cheap := some { baseUrl := some "/", model := some "cheap-model" },
            medium := some { baseUrl := some "http://medium.local" },
            frontier := some { baseUrl := some "http://frontier.local" },
            classifier := { enabled := true, baseUrl := some "/", model := "cls-model" } } ∧
    normalizeBaseUrl (some "/") = normalizeBaseUrl (some "/") ∧
    some "cheap-model" ≠ some "cls-model" := by
  refine ⟨rfl, rfl, by decide⟩

/-- C7 (amended): after a successful config load with the classifier
enabled, if the cheap and classifier base URLs strip to the same
*non-empty* string, the cheap model equals the classifier model. -/
theorem colocation_forces_model (c c' : AppConfig) (u : UpstreamCfg)
    (h : loadConfig c = .ok c') (he : c'.classifier.enabled = true)
    (hu : c'.cheap = some u)
    (heq : normalizeBaseUrl u.baseUrl = normalizeBaseUrl c'.classifier.baseUrl)
    (hne : strTruthyOpt (normalizeBaseUrl u.baseUrl) = true) :
    u.model = some c'.classifier.model := by
  simp only [loadConfig] at h
  by_cases g1 : ((colocateCheap c).classifier.enabled &&
      !strTruthyOpt (colocateCheap c).classifier.baseUrl) = true
  · rw [if_pos g1] at h; exact Except.noConfusion h
  rw [if_neg g1] at h
  by_cases g2 : (!strTruthyOpt (optBaseUrl (colocateCheap c).frontier)) = true
  · rw [if_pos g2] at h; exact Except.noConfusion h
  rw [if_neg g2] at h
  by_cases g3 : ((colocateCheap c).classifier.enabled &&
      !strTruthyOpt (optBaseUrl (colocateCheap c).cheap)) = true
  · rw [if_pos g3] at h; exact Except.noConfusion h
  rw [if_neg g3] at h
  by_cases g4 : ((colocateCheap c).classifier.enabled &&
      !strTruthyOpt (optBaseUrl (colocateCheap c).medium)) = true
  · rw [if_pos g4] at h; exact Except.noConfusion h
  rw [if_neg g4] at h
  have hcc : colocateCheap c = c' := Except.ok.inj h
  subst hcc
  rw [colocateCheap_classifier] at he heq
  rw [colocateCheap_classifier] at g1
  simp only [he, Bool.true_and, Bool.not_eq_true', Bool.not_eq_false] at g1
  rw [colocateCheap_classifier, colocateCheap_cheap_baseUrl] at g3
  simp only [he, Bool.true_and, Bool.not_eq_true', Bool.not_eq_false] at g3
  rcases colocateCheap_cheap_shape c with hsh | ⟨u0, hc0, hsh⟩
  · have hu' : c.cheap = some u := by rw [← hsh]; exact hu
    have hob : optBaseUrl c.cheap = u.baseUrl := by rw [hu']; rfl
    rw [hob] at g3
    have hfire := colocateCheap_fires c u hu' he g3 g1 heq hne
    rw [hfire] at hu
    simp only [Option.some.injEq] at hu
    rw [colocateCheap_classifier]
    have := congrArg UpstreamCfg.model hu
    simpa using this.symm
  · have hsu : some { u0 with model := some c.classifier.model } = some u :=
      hsh.symm.trans hu
    rw [colocateCheap_classifier]
    exact (congrArg UpstreamCfg.model (Option.some.inj hsu)).symm

/-- C7 (witness): with identical non-empty cheap and classifier base URLs,
loading forces the cheap model to the classifier's model. -/
theorem colocation_forces_model_witness :
    ({ baseUrl := some "http://local:8080", model := some "cls-model" } : UpstreamCfg).model =
      some "cls-model" :=
  colocation_forces_model
    { cheap := some { baseUrl := some "http://local:8080", model := some "cheap-model" },
      medium := some { baseUrl := some "http://medium.local" },
      frontier := some { baseUrl := some "http://frontier.local" },
      classifier := { enabled := true, baseUrl := some "http://local:8080",
                      model := "cls-model" } }
    { cheap := some { baseUrl := some "http://local:8080", model := some "cls-model" },
      medium := some { baseUrl := some "http://medium.local" },
      frontier := some { baseUrl := some "http://frontier.local" },
      classifier := { enabled := true, baseUrl := some "http://local:8080",
                      model := "cls-model" } }
    { baseUrl := some "http://local:8080", model := some "cls-model" }
    (by rfl) rfl rfl rfl (by rfl)

/-- C8 (counterexample): with router key `"k"`, a request whose
authorization header is the bare key `"k"` — not exactly `Bearer k` —
nevertheless passes the gate. -/
theorem auth_bare_key_passes_cex :
    onRequestAuth "k" (some "k") = none ∧ ("k" : String) ≠ "Bearer k" := by
  refine ⟨rfl, by decide⟩

/-- C8 (amended): with a router key configured (and the key itself not
starting with `Bearer `), a request passes the gate exactly when its
authorization header is `Bearer <key>` or the bare `<key>`; every other
header — including a missing one — is answered 401 `unauthorized`. -/
theorem auth_gate_characterization (key : String) (hdr : Option String)
    (hk : key ≠ "") (hnb : "Bearer ".toList.isPrefixOf key.toList = false) :
    onRequestAuth key hdr = none ↔
      (hdr.getD "" = "Bearer " ++ key ∨ hdr.getD "" = key) := by
  unfold onRequestAuth bearerToken
  rw [if_neg hk]
  by_cases hp : "Bearer ".toList.isPrefixOf (hdr.getD "").toList = true
  · rw [if_pos hp]
    obtain ⟨t, htl⟩ : "Bearer ".toList <+: (hdr.getD "").toList :=
      List.isPrefixOf_iff_prefix.mp hp
    have hdrop : (hdr.getD "").toList.drop 7 = t := by
      rw [← htl]; exact List.drop_left' (by rfl)
    rw [hdrop]
    constructor
    · intro hnone
      by_cases htk : t = key.toList
      · left
        apply String.ext
        show (hdr.getD "").toList = ("Bearer " ++ key).data
        rw [String.data_append, ← htl, htk]
        rfl
      · rw [if_neg htk] at hnone
        exact absurd hnone (by simp)
    · rintro (hx | hx)
      · have ha : (hdr.getD "").toList = "Bearer ".toList ++ key.toList := by
          rw [hx]; exact String.data_append _ _
        have htk : t = key.toList :=
          List.append_cancel_left (htl.trans ha)
        rw [if_pos htk]
      · exfalso
        have ha : (hdr.getD "").toList = key.toList := by rw [hx]
        rw [ha] at hp
        rw [hnb] at hp
        exact Bool.false_ne_true hp
  · rw [if_neg hp]
    constructor
    · intro hnone
      by_cases hak : (hdr.getD "").toList = key.toList
      · right
        exact String.ext hak
      · rw [if_neg hak] at hnone
        exact absurd hnone (by simp)
    · rintro (hx | hx)
      · exfalso
        apply hp
        refine List.isPrefixOf_iff_prefix.mpr ⟨key.toList, ?_⟩
        rw [hx]
        exact (String.data_append _ _).symm
      · have ha : (hdr.getD "").toList = key.toList := by rw [hx]
        rw [if_pos ha]

/-- C8 (witness): `Bearer secret` passes the gate when the key is
`secret`. -/
theorem auth_gate_characterization_witness :
    onRequestAuth "secret" (some "Bearer secret") = none :=
  (auth_gate_characterization "secret" (some "Bearer secret") (by decide) (by decide)).mpr
    (Or.inl (by decide))
